import Mathlib

/-!
Verification development for the vocab-game repository
(gesture-driven quiz: `src/camera.js`, `src/main.js`, `src/questions.js`).

Shallow embedding conventions:
* JS numbers used for angles and percentages are modelled as `ℚ`
  (every comparison the code performs on them is an exact order
  comparison, which `ℚ` reproduces faithfully).
* Timestamps (milliseconds) are modelled as `ℕ`.
* The module-level mutable variables of `camera.js`
  (`isTracking`, `onTiltCallback`, `tiltDebounceTimer`) become the
  fields of `CameraState`; the mutable `state` object of `main.js`
  becomes `GameState`.  Functions that mutate the state become
  functions returning the updated state.
* `tiltDebounceTimer` is a `setTimeout` handle that the timeout body
  resets to `null` after `DEBOUNCE_MS`; it is modelled as the expiry
  time `some (setTime + DEBOUNCE_MS)`; the timer is pending at `now`
  exactly when `now < expiry` (the earliest instant at which the real
  timer can have fired — a real timer may fire later, which can only
  lengthen the gap between emissions, never shorten it).
-/

namespace VocabGame

/-- Tilt / answer direction (the strings `'left'` / `'right'` in the source). -/
inductive Direction where
  | left
  | right
deriving DecidableEq, Repr, BEq

/-- The side opposite to a given direction. -/
def Direction.opposite : Direction → Direction
  | .left => .right
  | .right => .left

/-- `const TILT_THRESHOLD = 12` (degrees), `src/camera.js` line 9. -/
def TILT_THRESHOLD : ℚ := 12

/-- `const DEBOUNCE_MS = 800` (milliseconds), `src/camera.js` line 10. -/
def DEBOUNCE_MS : ℕ := 800

/-- The direction-classification step of `processResults`
(`src/camera.js` lines 126–135), as a function of the tilt angle
`tiltAngle = Math.atan2(rightEye.y - leftEye.y, rightEye.x - leftEye.x) * 180/π`
that the source computes from landmark indices 33 (left eye) and
263 (right eye):

    let tiltDirection = null;
    if (tiltAngle < -TILT_THRESHOLD) tiltDirection = 'right';
    else if (tiltAngle > TILT_THRESHOLD) tiltDirection = 'left';
-/
def classify (tiltAngle : ℚ) : Option Direction :=
  if tiltAngle < -TILT_THRESHOLD then some .right
  else if tiltAngle > TILT_THRESHOLD then some .left
  else none

/-- The module-level mutable state of `src/camera.js`:
`isTracking`, `onTiltCallback` (whether a callback is registered;
the callback itself is the game's gesture handler), and
`tiltDebounceTimer` (modelled as the expiry time of the pending
timeout, see the file comment). -/
structure CameraState where
  isTracking : Bool
  onTiltCallback : Bool
  tiltDebounceTimer : Option ℕ
deriving DecidableEq, Repr

/-- Whether the debounce timeout set by `processResults` is still
pending at time `now` (i.e. its body, which nulls the handle, has not
run yet). -/
def timerPending : Option ℕ → ℕ → Bool
  | none, _ => false
  | some expiry, now => decide (now < expiry)

/-- `processResults` (`src/camera.js` lines 99–159), restricted to its
state-and-callback effect (the canvas drawing and DOM indicator
updates have no bearing on any claim).  The input is the detection
result for one frame: `none` when `results.multiFaceLandmarks` is
empty (no face), otherwise the tilt angle computed from the eye
landmarks.  The output is the updated camera state and the direction
passed to `onTiltCallback`, if the callback was invoked:

    if (tiltDirection && onTiltCallback) {
      if (!tiltDebounceTimer) {
        onTiltCallback(tiltDirection);
        tiltDebounceTimer = setTimeout(() => { tiltDebounceTimer = null; }, DEBOUNCE_MS);
      }
    }
-/
def processResults (c : CameraState) (now : ℕ) (result : Option ℚ) :
    CameraState × Option Direction :=
  match result with
  | none => (c, none)
  | some tiltAngle =>
    match classify tiltAngle with
    | none => (c, none)
    | some d =>
      if c.onTiltCallback && !(timerPending c.tiltDebounceTimer now) then
        ({ c with tiltDebounceTimer := some (now + DEBOUNCE_MS) }, some d)
      else
        (c, none)

/-- `clearTiltCallback` (`src/camera.js` lines 240–247): unregister the
callback and cancel any pending debounce timeout. -/
def clearTiltCallback (c : CameraState) : CameraState :=
  { c with onTiltCallback := false, tiltDebounceTimer := none }

/-- `setTiltCallback` (`src/camera.js` lines 229–237): register a
callback and cancel any pending debounce timeout. -/
def setTiltCallback (c : CameraState) : CameraState :=
  { c with onTiltCallback := true, tiltDebounceTimer := none }

/-- `stopTracking` (`src/camera.js` lines 250–256): stop tracking and
clear the callback (the `camera.stop()` call releases the capture
device and has no effect on this state). -/
def stopTracking (c : CameraState) : CameraState :=
  clearTiltCallback { c with isTracking := false }

/-- Feed a time-stamped sequence of per-frame detection results through
`processResults`, threading the camera state; returns the times at
which `onTiltCallback` was invoked. -/
def runCamera (c : CameraState) : List (ℕ × Option ℚ) → List ℕ
  | [] => []
  | (t, r) :: rest =>
    match processResults c t r with
    | (c', some _) => t :: runCamera c' rest
    | (c', none) => runCamera c' rest

/-- A question as stored in the question bank (`src/questions.js`):
prompt, correct answer and wrong answer.  (`id`, `unitId` and
`disabled` play no role after `getGameQuestions` has filtered the
bank, so they are omitted.) -/
structure Question where
  question : String
  correct : String
  wrong : String
deriving DecidableEq, Repr

/-- A per-session question with its answers assigned to the two
sides, as produced by `prepareQuestion`. -/
structure PreparedQuestion where
  text : String
  leftAnswer : String
  rightAnswer : String
  correctSide : Direction
deriving DecidableEq, Repr

/-- `prepareQuestion` (`src/questions.js`):

    const isCorrectOnLeft = Math.random() < 0.5;
    return {
      text: question.question,
      leftAnswer: isCorrectOnLeft ? question.correct : question.wrong,
      rightAnswer: isCorrectOnLeft ? question.wrong : question.correct,
      correctSide: isCorrectOnLeft ? 'left' : 'right'
    };

The random draw `Math.random() < 0.5` is passed in as the boolean
`isCorrectOnLeft`, so both outcomes of the coin can be quantified over. -/
def prepareQuestion (isCorrectOnLeft : Bool) (q : Question) : PreparedQuestion :=
  { text := q.question
    leftAnswer := if isCorrectOnLeft then q.correct else q.wrong
    rightAnswer := if isCorrectOnLeft then q.wrong else q.correct
    correctSide := if isCorrectOnLeft then .left else .right }

/-- The answer a prepared question displays on a given side. -/
def PreparedQuestion.answerOn (pq : PreparedQuestion) : Direction → String
  | .left => pq.leftAnswer
  | .right => pq.rightAnswer

/-- The screens of `main.js` (`const screens = { welcome, permission,
instructions, game, results, manager }`). -/
inductive Screen where
  | welcome
  | permission
  | instructions
  | game
  | results
  | manager
deriving DecidableEq, Repr, BEq

/-- The game-relevant fields of the mutable `state` object of
`src/main.js` (the question-manager fields `editingQuestionId`,
`editingUnitId`, `unitModalMode`, `isAuthenticated` never interact
with the session state machine and are omitted). -/
structure GameState where
  currentScreen : Screen
  questions : List PreparedQuestion
  currentQuestionIndex : ℕ
  score : ℕ
  isAnswering : Bool
deriving DecidableEq, Repr

/-- The four result tiers of `endGame` (`src/main.js` lines 345–362),
plus the neutral tier for `totalAnswered === 0`. -/
inductive Tier where
  | noAnswers   -- 'Game Over' / didn't answer any questions
  | amazing     -- percentage ≥ 90
  | great       -- percentage ≥ 70
  | good        -- percentage ≥ 50
  | keepGoing   -- below 50
deriving DecidableEq, Repr

/-- Percentage computation of `endGame` (`src/main.js` line 343):
`totalAnswered > 0 ? (score / totalAnswered) * 100 : 0`. -/
def percentageOf (score totalAnswered : ℕ) : ℚ :=
  if totalAnswered > 0 then ((score : ℚ) / (totalAnswered : ℚ)) * 100 else 0

/-- Tier selection of `endGame` (`src/main.js` lines 345–362):

    if (totalAnswered === 0) { ... 'Game Over' ... }
    else if (percentage >= 90) { ... }
    else if (percentage >= 70) { ... }
    else if (percentage >= 50) { ... }
    else { ... }
-/
def resultTier (score totalAnswered : ℕ) : Tier :=
  let percentage := percentageOf score totalAnswered
  if totalAnswered = 0 then .noAnswers
  else if percentage ≥ 90 then .amazing
  else if percentage ≥ 70 then .great
  else if percentage ≥ 50 then .good
  else .keepGoing

/-- The finalized result that `endGame` computes and renders:
`totalAnswered = state.currentQuestionIndex`, the final score, the
percentage and the selected tier. -/
structure GameResult where
  totalAnswered : ℕ
  finalScore : ℕ
  percentage : ℚ
  tier : Tier
deriving DecidableEq, Repr

/-- The result `endGame` (`src/main.js` lines 334–373) computes from
the session state at the moment it is called. -/
def endGameResult (s : GameState) : GameResult :=
  { totalAnswered := s.currentQuestionIndex
    finalScore := s.score
    percentage := percentageOf s.score s.currentQuestionIndex
    tier := resultTier s.score s.currentQuestionIndex }

/-- The state effect of `endGame`: it clears the tilt callback, stops
tracking, renders the result and shows the results screen
(`showScreen('results')`); no session field other than
`currentScreen` changes. -/
def endGameState (s : GameState) : GameState :=
  { s with currentScreen := .results }

/-- `showQuestion` (`src/main.js` lines 267–286):

    if (state.currentQuestionIndex >= state.questions.length) { endGame(); return; }
    ... render the question ...
    state.isAnswering = true;
-/
def showQuestion (s : GameState) : GameState :=
  if s.currentQuestionIndex ≥ s.questions.length then endGameState s
  else { s with isAnswering := true }

/-- `handleTiltSelection` (`src/main.js` lines 289–325), split at its
only scheduling point: the function body up to (and including) the
`setTimeout(..., 300)` call runs synchronously when the debounced
gesture callback fires.  It returns the updated state together with
`some isCorrect` when the guard accepted the event (representing the
scheduled timeout, whose body is `scoringStep`/`feedbackDone` below),
and `none` when the event was ignored:

    if (!state.isAnswering || state.currentScreen !== 'game') return;
    state.isAnswering = false;
    const question = state.questions[state.currentQuestionIndex];
    const isCorrect = direction === question.correctSide;
    ... highlight ...
    setTimeout(() => { ... }, 300);

(The source indexes `state.questions[state.currentQuestionIndex]`
without a bounds check; whenever the guard accepts an event a question
is on screen, so the index is in range — the `none => false` branch
below is unreachable in every run considered here.) -/
def handleTiltSelection (s : GameState) (direction : Direction) :
    GameState × Option Bool :=
  if ¬ s.isAnswering ∨ s.currentScreen ≠ Screen.game then (s, none)
  else
    let isCorrect : Bool := match s.questions.get? s.currentQuestionIndex with
      | some q => decide (direction = q.correctSide)
      | none => false
    ({ s with isAnswering := false }, some isCorrect)

/-- The body of the `setTimeout` in `handleTiltSelection`
(`src/main.js` lines 307–324), up to the feedback call: on a correct
answer the score is incremented (`state.score++`); the wrong branch
changes no session state. -/
def scoringStep (s : GameState) (isCorrect : Bool) : GameState :=
  if isCorrect then { s with score := s.score + 1 } else s

/-- The feedback-completion callback passed to
`showCorrectFeedback`/`showWrongFeedback` (`src/main.js`
lines 312–315 and 319–322):

    state.currentQuestionIndex++;
    showQuestion();
-/
def feedbackDone (s : GameState) : GameState :=
  showQuestion { s with currentQuestionIndex := s.currentQuestionIndex + 1 }

/-- One full answer round as the event sequence unfolds at runtime:
the gesture callback fires; if accepted, the scheduled timeout then
runs (scoring + feedback), and the feedback completion advances to the
next question. -/
def answerRound (s : GameState) (d : Direction) : GameState :=
  match handleTiltSelection s d with
  | (s', none) => s'
  | (s', some isCorrect) => feedbackDone (scoringStep s' isCorrect)

/-- A sequence of answer rounds (one per delivered-and-completed
gesture event). -/
def runGame (s : GameState) (ds : List Direction) : GameState :=
  ds.foldl answerRound s

/-- Outcome of `startGame` (`src/main.js` lines 205–264): either the
empty-session error path (`state.questions.length === 0`: alert the
user and return without starting) or the started session. -/
inductive StartResult where
  | emptySessionError
  | started (s : GameState)
deriving DecidableEq, Repr

/-- The session state right after `startGame` has completed its happy
path: `currentQuestionIndex = 0`, `score = 0`, screen `game`
(`showScreen('game')`), and `showQuestion()` has shown question 0
(setting `isAnswering = true`). -/
def initialState (prepared : List PreparedQuestion) : GameState :=
  showQuestion
    { currentScreen := .game
      questions := prepared
      currentQuestionIndex := 0
      score := 0
      isAnswering := false }

/-- `startGame` (`src/main.js` lines 205–264), with the prepared
question list (the result of
`getGameQuestions(...).map(prepareQuestion)`) passed in, and the DOM /
camera-initialization effects dropped:

    state.questions = getGameQuestions(...).map(prepareQuestion);
    if (state.questions.length === 0) { alert(...); return; }
    state.currentQuestionIndex = 0;
    state.score = 0;
    state.isAnswering = false;
    showScreen('game');
    ...
    setTiltCallback(handleTiltSelection);
    showQuestion();

On the error path the function returns before any of the
state-machine fields (`currentQuestionIndex`, `score`, `isAnswering`,
`currentScreen`) is touched and before any question is shown. -/
def startGame (prepared : List PreparedQuestion) : StartResult :=
  if prepared.length = 0 then .emptySessionError
  else .started (initialState prepared)

/-- The session invariant while a question is on screen: game screen
active, input accepted, the prepared list fixed, and the current
index known. -/
def Running (s : GameState) (qs : List PreparedQuestion) (j : ℕ) : Prop :=
  s.currentScreen = .game ∧ s.isAnswering = true ∧ s.questions = qs ∧
    s.currentQuestionIndex = j

/-- Exhaustive case analysis of one `processResults` call: either no
callback invocation happens and the state is untouched, or the
callback fires, which requires a registered callback and a
non-pending timer, and re-arms the timer for `DEBOUNCE_MS`. -/
lemma processResults_spec (c : CameraState) (now : ℕ) (r : Option ℚ) :
    processResults c now r = (c, none) ∨
    ∃ d, c.onTiltCallback = true ∧ timerPending c.tiltDebounceTimer now = false ∧
      processResults c now r =
        ({ c with tiltDebounceTimer := some (now + DEBOUNCE_MS) }, some d) := by
  cases r with
  | none => exact Or.inl rfl
  | some a =>
    cases hcl : classify a with
    | none => exact Or.inl (by simp [processResults, hcl])
    | some d =>
      by_cases h : (c.onTiltCallback && !(timerPending c.tiltDebounceTimer now)) = true
      · rcases Bool.and_eq_true .. |>.mp h with ⟨h1, h2⟩
        refine Or.inr ⟨d, h1, by simpa using h2, ?_⟩
        simp [processResults, hcl, h]
      · exact Or.inl (by simp [processResults, hcl, h])

/-- With no callback registered, an entire run of frames invokes the
callback zero times (`processResults` never registers a callback: the
`onTiltCallback` slot is only written by
`setTiltCallback`/`clearTiltCallback`). -/
lemma runCamera_no_callback (samples : List (ℕ × Option ℚ)) :
    ∀ c : CameraState, c.onTiltCallback = false →
      runCamera c samples = [] := by
  induction samples with
  | nil => intro c _; rfl
  | cons s rest ih =>
    intro c h
    obtain ⟨t, r⟩ := s
    rcases processResults_spec c t r with hstep | ⟨d, hreg, _, _⟩
    · simp only [runCamera, hstep]
      exact ih c h
    · rw [h] at hreg; exact absurd hreg (by simp)

/-- Key debounce invariant, proved by one induction over the frame
sequence: every callback invocation from a state whose debounce timer
expires at `e` happens at a time `≥ e`, and consecutive invocation
times are at least `DEBOUNCE_MS` apart. -/
lemma runCamera_gap (samples : List (ℕ × Option ℚ)) :
    ∀ c : CameraState,
      (∀ e, c.tiltDebounceTimer = some e → ∀ u ∈ runCamera c samples, e ≤ u) ∧
      List.Chain' (fun a b => a + DEBOUNCE_MS ≤ b) (runCamera c samples) := by
  induction samples with
  | nil => intro c; exact ⟨fun _ _ _ hu => absurd hu (List.not_mem_nil _), List.chain'_nil⟩
  | cons s rest ih =>
    intro c
    obtain ⟨t, r⟩ := s
    rcases processResults_spec c t r with hstep | ⟨d, _, hpend, hstep⟩
    · -- no invocation at this frame; the state is unchanged
      have hrun : runCamera c ((t, r) :: rest) = runCamera c rest := by
        simp only [runCamera, hstep]
      rw [hrun]
      exact ih c
    · -- the callback fired at time t
      have hrun : runCamera c ((t, r) :: rest) =
          t :: runCamera { c with tiltDebounceTimer := some (t + DEBOUNCE_MS) } rest := by
        simp only [runCamera, hstep]
      have htail := ih { c with tiltDebounceTimer := some (t + DEBOUNCE_MS) }
      have htail_ge : ∀ u ∈ runCamera { c with tiltDebounceTimer := some (t + DEBOUNCE_MS) } rest,
          t + DEBOUNCE_MS ≤ u := fun u hu => htail.1 (t + DEBOUNCE_MS) rfl u hu
      rw [hrun]
      constructor
      · intro e he u hu
        have hle : e ≤ t := by
          unfold timerPending at hpend
          rw [he] at hpend
          exact Nat.le_of_not_lt (by simpa using hpend)
        rcases List.mem_cons.mp hu with hu | hu
        · exact hu ▸ hle
        · exact le_trans (le_trans hle (Nat.le_add_right t DEBOUNCE_MS)) (htail_ge u hu)
      · exact List.chain'_cons'.mpr
          ⟨fun y hy => htail_ge y (List.mem_of_mem_head? hy), htail.2⟩

@[simp] lemma scoringStep_questions (s : GameState) (c : Bool) :
    (scoringStep s c).questions = s.questions := by cases c <;> rfl

@[simp] lemma scoringStep_index (s : GameState) (c : Bool) :
    (scoringStep s c).currentQuestionIndex = s.currentQuestionIndex := by cases c <;> rfl

@[simp] lemma scoringStep_screen (s : GameState) (c : Bool) :
    (scoringStep s c).currentScreen = s.currentScreen := by cases c <;> rfl

@[simp] lemma scoringStep_isAnswering (s : GameState) (c : Bool) :
    (scoringStep s c).isAnswering = s.isAnswering := by cases c <;> rfl

/-- When the guard accepts (input accepted on the game screen), the
synchronous body of `handleTiltSelection` clears `isAnswering` and
schedules the timeout carrying `isCorrect`. -/
lemma handleTiltSelection_accepted (s : GameState) (d : Direction)
    (h1 : s.isAnswering = true) (h2 : s.currentScreen = Screen.game) :
    handleTiltSelection s d =
      ({ s with isAnswering := false },
        some (match s.questions.get? s.currentQuestionIndex with
          | some q => decide (d = q.correctSide)
          | none => false)) := by
  unfold handleTiltSelection
  rw [if_neg (by simp [h1, h2])]

/-- An accepted round is the scheduled timeout body followed by the
feedback completion. -/
lemma answerRound_eq (s : GameState) (d : Direction)
    (h1 : s.isAnswering = true) (h2 : s.currentScreen = Screen.game) :
    ∃ c : Bool, answerRound s d =
      feedbackDone (scoringStep { s with isAnswering := false } c) := by
  refine ⟨(match s.questions.get? s.currentQuestionIndex with
    | some q => decide (d = q.correctSide)
    | none => false), ?_⟩
  unfold answerRound
  rw [handleTiltSelection_accepted s d h1 h2]

/-- `feedbackDone` when questions remain: advance and accept input. -/
lemma feedbackDone_cont (s : GameState)
    (h : s.currentQuestionIndex + 1 < s.questions.length) :
    feedbackDone s =
      { s with currentQuestionIndex := s.currentQuestionIndex + 1, isAnswering := true } := by
  unfold feedbackDone showQuestion
  rw [if_neg (by simp; omega)]

/-- `feedbackDone` past the last question: `showQuestion` calls
`endGame`, which shows the results screen. -/
lemma feedbackDone_finish (s : GameState)
    (h : s.questions.length ≤ s.currentQuestionIndex + 1) :
    feedbackDone s =
      { s with currentQuestionIndex := s.currentQuestionIndex + 1, currentScreen := .results } := by
  unfold feedbackDone showQuestion endGameState
  rw [if_pos (by simp; omega)]

/-- Effect of one answer round from a running state: the index
advances by one; if questions remain the session is running on the
next question, otherwise `showQuestion` has called `endGame` and the
results screen is showing. -/
lemma answerRound_spec (s : GameState) (qs : List PreparedQuestion) (j : ℕ)
    (d : Direction) (h : Running s qs j) :
    (answerRound s d).questions = qs ∧
    (answerRound s d).currentQuestionIndex = j + 1 ∧
    (j + 1 < qs.length → Running (answerRound s d) qs (j + 1)) ∧
    (qs.length ≤ j + 1 →
      (answerRound s d).currentScreen = .results ∧
      (answerRound s d).isAnswering = false) := by
  obtain ⟨hscr, hans, hq, hj⟩ := h
  obtain ⟨c, hc⟩ := answerRound_eq s d hans hscr
  rw [hc]
  by_cases hend : j + 1 < qs.length
  · rw [feedbackDone_cont _ (by simpa [hq, hj] using hend)]
    refine ⟨by simp [hq], by simp [hj], fun _ => ?_,
      fun hge => absurd hge (not_le.mpr hend)⟩
    exact ⟨by simp [hscr], by simp, by simp [hq], by simp [hj]⟩
  · rw [feedbackDone_finish _ (by simp [hq, hj]; omega)]
    exact ⟨by simp [hq], by simp [hj], fun hlt => absurd hlt hend,
      fun _ => ⟨by simp, by simp⟩⟩

/-- Running a list of answer rounds from a running state advances the
index by one per round; as long as rounds remain within the question
count the session keeps running, and the round that answers the last
question ends on the results screen. -/
lemma runGame_spec (ds : List Direction) :
    ∀ (s : GameState) (qs : List PreparedQuestion) (j : ℕ), Running s qs j →
      j + ds.length ≤ qs.length →
      (runGame s ds).questions = qs ∧
      (runGame s ds).currentQuestionIndex = j + ds.length ∧
      (j + ds.length < qs.length → Running (runGame s ds) qs (j + ds.length)) ∧
      (ds ≠ [] → j + ds.length = qs.length →
        (runGame s ds).currentScreen = .results) := by
  induction ds with
  | nil =>
    intro s qs j h _
    exact ⟨h.2.2.1, by simpa using h.2.2.2, fun _ => by simpa using h,
      fun hne _ => absurd rfl hne⟩
  | cons d rest ih =>
    intro s qs j h hlen
    have hstep := answerRound_spec s qs j d h
    cases rest with
    | nil =>
      -- single round: runGame s [d] is answerRound s d
      refine ⟨hstep.1, by simpa using hstep.2.1,
        fun hlt => ?_, fun _ hlast => ?_⟩
      · have := hstep.2.2.1 (by simpa using hlt)
        simpa using this
      · exact (hstep.2.2.2 (by simp at hlast; omega)).1
    | cons r rs =>
      -- at least one more round follows, so this one stays within range
      have hlt : j + 1 < qs.length := by simp at hlen; omega
      have harith : j + 1 + (r :: rs).length = j + (d :: r :: rs).length := by
        simp; omega
      have hrun := ih (answerRound s d) qs (j + 1) (hstep.2.2.1 hlt)
        (by simp at hlen ⊢; omega)
      refine ⟨hrun.1, hrun.2.1.trans harith, fun hlt2 => ?_, fun _ hlast => ?_⟩
      · exact harith ▸ hrun.2.2.1 (by simp at hlt2 ⊢; omega)
      · exact hrun.2.2.2 (by simp) (by simp at hlast ⊢; omega)

/-- A started session with a non-empty question list is running on
question 0. -/
lemma initialState_running (prepared : List PreparedQuestion)
    (h : prepared ≠ []) : Running (initialState prepared) prepared 0 := by
  have hlen : ¬ (0 ≥ prepared.length) := by
    simp only [ge_iff_le, Nat.le_zero, List.length_eq_zero]
    exact h
  unfold initialState showQuestion
  simp only [hlen, if_false]
  exact ⟨rfl, rfl, rfl, rfl⟩

/-- Characterization of the four `endGame` tiers for a session with at
least one answered question: each tier holds exactly on its percentage
band, the bands being inclusive at the lower bound. -/
lemma resultTier_spec (score total : ℕ) (h : total ≠ 0) :
    (resultTier score total = Tier.amazing ↔ 90 ≤ percentageOf score total) ∧
    (resultTier score total = Tier.great ↔
      70 ≤ percentageOf score total ∧ percentageOf score total < 90) ∧
    (resultTier score total = Tier.good ↔
      50 ≤ percentageOf score total ∧ percentageOf score total < 70) ∧
    (resultTier score total = Tier.keepGoing ↔ percentageOf score total < 50) := by
  have hfold : resultTier score total =
      (if percentageOf score total ≥ 90 then Tier.amazing
       else if percentageOf score total ≥ 70 then Tier.great
       else if percentageOf score total ≥ 50 then Tier.good
       else Tier.keepGoing) := by
    simp only [resultTier, if_neg h]
  rw [hfold]
  set p := percentageOf score total
  by_cases h90 : p ≥ 90
  · rw [if_pos h90]
    refine ⟨⟨fun _ => h90, fun _ => rfl⟩,
      ⟨fun hc => Tier.noConfusion hc, fun hc => absurd h90 (not_le.mpr hc.2)⟩,
      ⟨fun hc => Tier.noConfusion hc,
        fun hc => absurd h90 (not_le.mpr (hc.2.trans (by norm_num)))⟩,
      ⟨fun hc => Tier.noConfusion hc,
        fun hc => absurd h90 (not_le.mpr (hc.trans (by norm_num)))⟩⟩
  · rw [if_neg h90]
    by_cases h70 : p ≥ 70
    · rw [if_pos h70]
      refine ⟨⟨fun hc => Tier.noConfusion hc, fun hc => absurd hc h90⟩,
        ⟨fun _ => ⟨h70, not_le.mp h90⟩, fun _ => rfl⟩,
        ⟨fun hc => Tier.noConfusion hc, fun hc => absurd h70 (not_le.mpr hc.2)⟩,
        ⟨fun hc => Tier.noConfusion hc,
          fun hc => absurd h70 (not_le.mpr (hc.trans (by norm_num)))⟩⟩
    · rw [if_neg h70]
      by_cases h50 : p ≥ 50
      · rw [if_pos h50]
        refine ⟨⟨fun hc => Tier.noConfusion hc, fun hc => absurd hc h90⟩,
          ⟨fun hc => Tier.noConfusion hc, fun hc => absurd hc.1 h70⟩,
          ⟨fun _ => ⟨h50, not_le.mp h70⟩, fun _ => rfl⟩,
          ⟨fun hc => Tier.noConfusion hc, fun hc => absurd h50 (not_le.mpr hc)⟩⟩
      · rw [if_neg h50]
        exact ⟨⟨fun hc => Tier.noConfusion hc, fun hc => absurd hc h90⟩,
          ⟨fun hc => Tier.noConfusion hc, fun hc => absurd hc.1 h70⟩,
          ⟨fun hc => Tier.noConfusion hc, fun hc => absurd hc.1 h50⟩,
          ⟨fun _ => not_le.mp h50, fun _ => rfl⟩⟩

/-- C1: for every raw tilt-sample sequence fed to `processResults`
(any directions, any spacing, from any debouncer state — also
throughout any period with a callback registered), any two consecutive
callback invocations (emitted gesture events) are at least
`DEBOUNCE_MS = 800` ms apart. -/
theorem debounce_min_gap (c : CameraState) (samples : List (ℕ × Option ℚ)) :
    List.Chain' (fun a b => a + DEBOUNCE_MS ≤ b) (runCamera c samples) :=
  (runCamera_gap samples c).2

/-- C2: a gesture event delivered while `isAnswering` is false, or
while the current screen is not the game screen, leaves the whole
session state (score, index, `isAnswering`, question list, screen)
unchanged and schedules nothing. -/
theorem stale_gesture_ignored (s : GameState) (d : Direction)
    (h : ¬ s.isAnswering ∨ s.currentScreen ≠ Screen.game) :
    handleTiltSelection s d = (s, none) := by
  unfold handleTiltSelection
  rw [if_pos h]

theorem stale_gesture_ignored_witness :
    (¬ (⟨Screen.game, [], 0, 0, false⟩ : GameState).isAnswering ∨
      (⟨Screen.game, [], 0, 0, false⟩ : GameState).currentScreen ≠ Screen.game) ∧
    handleTiltSelection ⟨Screen.game, [], 0, 0, false⟩ Direction.left =
      (⟨Screen.game, [], 0, 0, false⟩, none) :=
  ⟨Or.inl (by decide),
    stale_gesture_ignored ⟨Screen.game, [], 0, 0, false⟩ Direction.left
      (Or.inl (by decide))⟩

/-- C3: when a gesture event is accepted, the synchronous part of
`handleTiltSelection` clears `isAnswering` with no suspension point
after the guard check and before any scoring side effect (the returned
state still has the old score; scoring only happens in the scheduled
timeout); consequently a second gesture event delivered before the
next question is shown is a no-op and schedules no second scoring, so
each question is scored at most once. -/
theorem guard_cleared_before_scoring (s : GameState) (d d' : Direction)
    (h1 : s.isAnswering = true) (h2 : s.currentScreen = Screen.game) :
    (handleTiltSelection s d).1.isAnswering = false ∧
    (handleTiltSelection s d).1.score = s.score ∧
    handleTiltSelection (handleTiltSelection s d).1 d' =
      ((handleTiltSelection s d).1, none) := by
  rw [handleTiltSelection_accepted s d h1 h2]
  refine ⟨rfl, rfl, ?_⟩
  unfold handleTiltSelection
  rw [if_pos (Or.inl (by simp))]

theorem guard_cleared_before_scoring_witness :
    ((⟨Screen.game, [⟨"q", "a", "b", Direction.left⟩], 0, 0, true⟩ :
        GameState).isAnswering = true) ∧
    ((⟨Screen.game, [⟨"q", "a", "b", Direction.left⟩], 0, 0, true⟩ :
        GameState).currentScreen = Screen.game) ∧
    ((handleTiltSelection ⟨Screen.game, [⟨"q", "a", "b", Direction.left⟩], 0, 0, true⟩
        Direction.left).1.isAnswering = false ∧
      (handleTiltSelection ⟨Screen.game, [⟨"q", "a", "b", Direction.left⟩], 0, 0, true⟩
        Direction.left).1.score = 0 ∧
      handleTiltSelection
        (handleTiltSelection ⟨Screen.game, [⟨"q", "a", "b", Direction.left⟩], 0, 0, true⟩
          Direction.left).1 Direction.right =
        ((handleTiltSelection ⟨Screen.game, [⟨"q", "a", "b", Direction.left⟩], 0, 0, true⟩
          Direction.left).1, none)) :=
  ⟨rfl, rfl,
    guard_cleared_before_scoring
      ⟨Screen.game, [⟨"q", "a", "b", Direction.left⟩], 0, 0, true⟩
      Direction.left Direction.right rfl rfl⟩

/-- C4: the tilt classifier maps the angle
`atan2(rightEye.y - leftEye.y, rightEye.x - leftEye.x)` in degrees to
Right iff the angle is `< -TILT_THRESHOLD`, to Left iff it is
`> TILT_THRESHOLD`, and to no direction otherwise; in particular both
boundary angles `±TILT_THRESHOLD` map to no direction. -/
theorem classify_spec (a : ℚ) :
    (classify a = some Direction.right ↔ a < -TILT_THRESHOLD) ∧
    (classify a = some Direction.left ↔ TILT_THRESHOLD < a) ∧
    (classify a = none ↔ -TILT_THRESHOLD ≤ a ∧ a ≤ TILT_THRESHOLD) ∧
    classify TILT_THRESHOLD = none ∧ classify (-TILT_THRESHOLD) = none := by
  refine ⟨?_, ?_, ?_, by decide, by decide⟩
  · unfold classify
    split_ifs with h1 h2
    · simp [h1]
    · exact ⟨fun hc => absurd hc (by decide), fun hc => absurd hc h1⟩
    · exact ⟨fun hc => absurd hc (by decide), fun hc => absurd hc h1⟩
  · unfold classify
    split_ifs with h1 h2
    · refine ⟨fun hc => absurd hc (by decide), fun hc => absurd h1 ?_⟩
      unfold TILT_THRESHOLD at hc ⊢
      intro hlt
      linarith
    · simp [h2]
    · exact ⟨fun hc => absurd hc (by decide), fun hc => absurd hc h2⟩
  · unfold classify
    split_ifs with h1 h2
    · refine ⟨fun hc => absurd hc (by decide), fun hc => absurd h1 (not_lt.mpr hc.1)⟩
    · exact ⟨fun hc => absurd hc (by decide), fun hc => absurd h2 (not_lt.mpr hc.2)⟩
    · exact ⟨fun _ => ⟨not_lt.mp h1, not_lt.mp h2⟩, fun _ => rfl⟩

/-- C5: ending a session of `N = prepared.length` questions explicitly
after exactly `k = ds.length < N` answered questions finalizes with
`totalAnswered = k` (the current index at that moment), not `N`, and
the percentage is computed against `k`. -/
theorem early_end_total_answered (prepared : List PreparedQuestion)
    (ds : List Direction) (hk : ds.length < prepared.length) :
    (endGameResult (runGame (initialState prepared) ds)).totalAnswered = ds.length ∧
    (endGameResult (runGame (initialState prepared) ds)).totalAnswered ≠ prepared.length ∧
    (endGameResult (runGame (initialState prepared) ds)).percentage =
      percentageOf (runGame (initialState prepared) ds).score ds.length := by
  have hne : prepared ≠ [] := by
    intro h0
    rw [h0] at hk
    simp at hk
  have hrun := runGame_spec ds (initialState prepared) prepared 0
    (initialState_running prepared hne) (by omega)
  have hidx : (runGame (initialState prepared) ds).currentQuestionIndex = ds.length := by
    have := hrun.2.1
    omega
  refine ⟨?_, ?_, ?_⟩
  · show (runGame (initialState prepared) ds).currentQuestionIndex = ds.length
    exact hidx
  · show (runGame (initialState prepared) ds).currentQuestionIndex ≠ prepared.length
    omega
  · show percentageOf (runGame (initialState prepared) ds).score
        (runGame (initialState prepared) ds).currentQuestionIndex =
      percentageOf (runGame (initialState prepared) ds).score ds.length
    rw [hidx]

theorem early_end_total_answered_witness :
    (1 < 2) ∧
    ((endGameResult (runGame
        (initialState [⟨"q", "a", "b", Direction.left⟩, ⟨"r", "c", "d", Direction.right⟩])
        [Direction.left])).totalAnswered = 1 ∧
      (endGameResult (runGame
        (initialState [⟨"q", "a", "b", Direction.left⟩, ⟨"r", "c", "d", Direction.right⟩])
        [Direction.left])).totalAnswered ≠ 2 ∧
      (endGameResult (runGame
        (initialState [⟨"q", "a", "b", Direction.left⟩, ⟨"r", "c", "d", Direction.right⟩])
        [Direction.left])).percentage =
        percentageOf (runGame
          (initialState [⟨"q", "a", "b", Direction.left⟩, ⟨"r", "c", "d", Direction.right⟩])
          [Direction.left]).score 1) :=
  ⟨by decide,
    early_end_total_answered
      [⟨"q", "a", "b", Direction.left⟩, ⟨"r", "c", "d", Direction.right⟩]
      [Direction.left] (by decide)⟩

/-- C6: on finish, `totalAnswered = 0` yields the neutral no-answers
tier with no division (the percentage guard returns 0); otherwise the
percentage is `score / totalAnswered * 100` and exactly one of the
four tiers is selected, with inclusive lower bounds at 90, 70 and 50
and a below-50 tier — the bands are mutually exclusive and exhaustive. -/
theorem result_banding (score totalAnswered : ℕ) :
    (totalAnswered = 0 →
      resultTier score totalAnswered = Tier.noAnswers ∧
      percentageOf score totalAnswered = 0) ∧
    (totalAnswered ≠ 0 →
      resultTier score totalAnswered ≠ Tier.noAnswers ∧
      percentageOf score totalAnswered = (score : ℚ) / (totalAnswered : ℚ) * 100 ∧
      (resultTier score totalAnswered = Tier.amazing ↔
        90 ≤ percentageOf score totalAnswered) ∧
      (resultTier score totalAnswered = Tier.great ↔
        70 ≤ percentageOf score totalAnswered ∧ percentageOf score totalAnswered < 90) ∧
      (resultTier score totalAnswered = Tier.good ↔
        50 ≤ percentageOf score totalAnswered ∧ percentageOf score totalAnswered < 70) ∧
      (resultTier score totalAnswered = Tier.keepGoing ↔
        percentageOf score totalAnswered < 50)) := by
  constructor
  · intro h0
    subst h0
    exact ⟨by simp [resultTier], by simp [percentageOf]⟩
  · intro h0
    have hspec := resultTier_spec score totalAnswered h0
    refine ⟨?_, ?_, hspec.1, hspec.2.1, hspec.2.2.1, hspec.2.2.2⟩
    · simp only [resultTier, if_neg h0]
      split_ifs <;> exact fun hc => Tier.noConfusion hc
    · unfold percentageOf
      rw [if_pos (Nat.pos_of_ne_zero h0)]

theorem result_banding_witness :
    (10 ≠ 0) ∧ resultTier 9 10 = Tier.amazing :=
  ⟨by decide, (((result_banding 9 10).2 (by decide)).2.2.1).mpr
    (by norm_num [percentageOf])⟩

/-- C7: a session started with `N ≥ 1` prepared questions, after one
accepted gesture per question (any directions) each followed by the
feedback completion, reaches the results screen (Finished) with
`totalAnswered = N`. -/
theorem full_session_reaches_finished (prepared : List PreparedQuestion)
    (ds : List Direction) (hne : prepared ≠ [])
    (hlen : ds.length = prepared.length) :
    startGame prepared = StartResult.started (initialState prepared) ∧
    (runGame (initialState prepared) ds).currentScreen = Screen.results ∧
    (endGameResult (runGame (initialState prepared) ds)).totalAnswered =
      prepared.length := by
  have hstart : startGame prepared = StartResult.started (initialState prepared) := by
    unfold startGame
    rw [if_neg (by simpa using hne)]
  have hrun := runGame_spec ds (initialState prepared) prepared 0
    (initialState_running prepared hne) (by omega)
  have hdsne : ds ≠ [] := by
    intro h0
    rw [h0] at hlen
    simp at hlen
    exact hne (List.length_eq_zero.mp hlen.symm)
  refine ⟨hstart, hrun.2.2.2 hdsne (by omega), ?_⟩
  show (runGame (initialState prepared) ds).currentQuestionIndex = prepared.length
  have := hrun.2.1
  omega

theorem full_session_reaches_finished_witness :
    (([⟨"q", "a", "b", Direction.left⟩] : List PreparedQuestion) ≠ []) ∧
    (startGame [⟨"q", "a", "b", Direction.left⟩] =
        StartResult.started (initialState [⟨"q", "a", "b", Direction.left⟩]) ∧
      (runGame (initialState [⟨"q", "a", "b", Direction.left⟩])
        [Direction.right]).currentScreen = Screen.results ∧
      (endGameResult (runGame (initialState [⟨"q", "a", "b", Direction.left⟩])
        [Direction.right])).totalAnswered = 1) :=
  ⟨by decide,
    full_session_reaches_finished [⟨"q", "a", "b", Direction.left⟩]
      [Direction.right] (by decide) rfl⟩

/-- C8: starting a session with an empty prepared-question sequence
fails on the empty-session error path: `startGame` reports the error
before initializing any state-machine field or showing any question,
and produces no started session state. -/
theorem empty_session_start_fails :
    startGame [] = StartResult.emptySessionError ∧
    ∀ s : GameState, startGame [] ≠ StartResult.started s := by
  refine ⟨rfl, fun s hc => ?_⟩
  exact StartResult.noConfusion hc

/-- C9: after `stopTracking` (stop), any sequence of landmark results
still arriving from in-flight detector calls produces zero callback
invocations: each result is discarded by `processResults` because the
callback slot was cleared, and no invocation can occur until
`setTiltCallback` registers a callback again. -/
theorem no_gesture_after_stop (c : CameraState) (samples : List (ℕ × Option ℚ)) :
    runCamera (stopTracking c) samples = [] :=
  runCamera_no_callback samples (stopTracking c) rfl

/-- C10: for both outcomes of the `Math.random() < 0.5` coin,
`prepareQuestion` places the correct answer on the side named by
`correctSide` and the wrong answer on the opposite side; the displayed
pair is exactly {correct, wrong}, and comparing a gesture direction
with `correctSide` agrees with which displayed answer was chosen. -/
theorem prepareQuestion_sides (q : Question) (coin : Bool) :
    (prepareQuestion coin q).answerOn (prepareQuestion coin q).correctSide = q.correct ∧
    (prepareQuestion coin q).answerOn (prepareQuestion coin q).correctSide.opposite =
      q.wrong ∧
    (((prepareQuestion coin q).leftAnswer = q.correct ∧
        (prepareQuestion coin q).rightAnswer = q.wrong) ∨
      ((prepareQuestion coin q).leftAnswer = q.wrong ∧
        (prepareQuestion coin q).rightAnswer = q.correct)) ∧
    ∀ d : Direction, (prepareQuestion coin q).answerOn d =
      if d = (prepareQuestion coin q).correctSide then q.correct else q.wrong := by
  cases coin with
  | true =>
    refine ⟨rfl, rfl, Or.inl ⟨rfl, rfl⟩, fun d => ?_⟩
    cases d <;> simp [prepareQuestion, PreparedQuestion.answerOn]
  | false =>
    refine ⟨rfl, rfl, Or.inr ⟨rfl, rfl⟩, fun d => ?_⟩
    cases d <;> simp [prepareQuestion, PreparedQuestion.answerOn]

end VocabGame
